import Mathlib

/-!
Verification development for the SARAL v1 eligibility-adjudication core.

The definitions below are a shallow embedding of the Python source:
  - `app/engine/scheme_config.py`  (scheme registry)
  - `app/engine/rules.py`          (rule engine, `assistive_decision`)
  - `app/engine/near_miss.py`      (near-miss analyzer, engine revision)
  - `app/engine/audit.py`          (`risk_flag_from_prob`)
  - `app/ai/predictors.py`         (`predict_eligibility` wrapper)
  - `app/routes/cases.py`          (`assign_arm`, `check_near_miss`,
                                    the AI step, case build and blinding
                                    inside `create_case`)

Python ints are modelled as `Int`, Python floats as `ℚ` (binary floating
point is abstracted to exact rationals; every constant used by the code
at the claims' inputs is exactly representable, see comments in place),
`None`-able values as `Option`, raised exceptions as `Option`/`Except`
error values, and dict-shaped records as structures.
-/

namespace Saral

/-! ## Scheme configuration (`app/engine/scheme_config.py`) -/

/-- One income band: `{"name": ..., "max": ...}`. -/
structure Band where
  name : String
  max : Int
deriving Repr, DecidableEq

/-- The `criteria` sub-dict of a scheme configuration.  `max_age` is present
in the PMAY dict but read by no code path. -/
structure Criteria where
  min_age : Int
  max_age : Option Int
  gender : List String
  must_be_rural : Bool
  requires_marginalized : Bool
  income_bands : List Band
deriving Repr, DecidableEq

/-- One entry of `SCHEME_CONFIG` (the `description` string is dropped:
it is read by no code path). -/
structure SchemeCfg where
  criteria : Criteria
  alternatives : List String
deriving Repr, DecidableEq

/-- `SCHEME_CONFIG["PMAY"]["criteria"]["income_bands"]`. -/
def pmay_bands : List Band :=
  [⟨"EWS (Economically Weaker)", 300000⟩, ⟨"LIG (Low Income Group)", 600000⟩]

/-- `SCHEME_CONFIG["PMAY"]`. -/
def pmay_config : SchemeCfg :=
  { criteria :=
      { min_age := 18
        max_age := some 70
        gender := ["F", "M", "O"]
        must_be_rural := false
        requires_marginalized := false
        income_bands := pmay_bands }
    alternatives := ["Rent Agreement Support", "Shelter Homes"] }

/-- `SCHEME_CONFIG["UJJ"]`. -/
def ujj_config : SchemeCfg :=
  { criteria :=
      { min_age := 18
        max_age := none
        gender := ["F"]
        must_be_rural := false
        requires_marginalized := false
        income_bands := [⟨"BPL / Ration Card Holder", 250000⟩] }
    alternatives := ["General LPG Connection", "State Subsidy"] }

/-- Python `code.upper()`: character-wise `Char.toUpper`.  This equals
`String.toUpper`, restated by structural recursion over the character
list so that proofs can evaluate it. -/
def str_upper (s : String) : String :=
  String.mk (s.data.map Char.toUpper)

/-- `get_scheme_config(code)`: `None` for a falsy code, else
`SCHEME_CONFIG.get(code.upper())`. -/
def get_scheme_config (code : String) : Option SchemeCfg :=
  if code = "" then none
  else if str_upper code = "PMAY" then some pmay_config
  else if str_upper code = "UJJ" then some ujj_config
  else none

/-! ## Rule engine (`app/engine/rules.py`) -/

/-- `RuleOut` dataclass. -/
structure RuleOut where
  rule_result : String
  reasons : List String
  alternatives : List String
  tags : List String
deriving Repr, DecidableEq

/-- Citizen profile dict as read by `assistive_decision`: `age`, `rural`
and `caste_marginalized` are coerced with `int(... or 0)` in the source, so
they are plain `Int` here; `gender`, `income`, `income_period` are fetched
with `.get` and may be absent. -/
structure Profile where
  age : Int
  gender : Option String
  rural : Int
  caste_marginalized : Int
  income : Option Int
  income_period : Option String
deriving Repr, DecidableEq

/-- `_annualize_income`: `ValueError` on an unknown period is modelled as
`none`. -/
def _annualize_income (income : Int) (period : String) : Option Int :=
  if period = "annual" then some income
  else if period = "monthly" then some (income * 12)
  else none

/-- First-match scan of the income bands: the first band (in list order)
with `annual_income <= band["max"]` wins.  The source's `try/except` around
`int(band.get("max", -1))` can only fire on malformed config entries, which
the embedded configuration (the only one in the repository) has none of. -/
def findBand : List Band → Int → Option String
  | [], _ => none
  | b :: rest, annual =>
      if annual ≤ b.max then some b.name else findBand rest annual

/-- Membership test for `gender not in allowed_genders`: a missing gender
is not a member of any list (Python `None not in [...]` is `True`). -/
def gender_in (g : Option String) (allowed : List String) : Bool :=
  match g with
  | some s => allowed.contains s
  | none => false

/-- `assistive_decision(scheme_code, profile)` from `app/engine/rules.py`,
with the five guard appends kept in source order (age, gender, rural,
income bands, marginalized). -/
def assistive_decision (scheme_code : String) (profile : Profile) : RuleOut :=
  match get_scheme_config scheme_code with
  | none => ⟨"UNKNOWN_NEEDS_DOCS", ["Invalid scheme code"], [], []⟩
  | some cfg =>
    let criteria := cfg.criteria
    let alts := cfg.alternatives
    match profile.income, profile.income_period with
    | some inc, some per =>
      match _annualize_income inc per with
      | none => ⟨"UNKNOWN_NEEDS_DOCS", ["Invalid income format"], alts, []⟩
      | some annual =>
        let reasons1 : List String :=
          if criteria.min_age ≠ 0 ∧ profile.age < criteria.min_age then
            ["Age must be " ++ toString criteria.min_age ++ "+"]
          else []
        let reasons2 : List String :=
          reasons1 ++
            (if criteria.gender ≠ [] ∧ gender_in profile.gender criteria.gender = false then
              ["Applicant category not eligible"]
            else [])
        let reasons3 : List String :=
          reasons2 ++
            (if criteria.must_be_rural = true ∧ profile.rural ≠ 1 then
              ["Must be Rural"]
            else [])
        let matched := findBand criteria.income_bands annual
        let reasons4 : List String :=
          reasons3 ++
            (if criteria.income_bands ≠ [] ∧ matched = none then
              ["Income exceeds all eligible bands"]
            else [])
        let tags : List String :=
          match matched with
          | some nm => [scheme_code ++ "_BAND:" ++ nm]
          | none => []
        let reasons5 : List String :=
          reasons4 ++
            (if criteria.requires_marginalized = true ∧ profile.caste_marginalized ≠ 1 then
              ["Must belong to eligible social category"]
            else [])
        if reasons5 = [] then ⟨"ELIGIBLE_BY_RULE", [], [], tags⟩
        else ⟨"INELIGIBLE_BY_RULE", reasons5, alts, tags⟩
    | _, _ => ⟨"UNKNOWN_NEEDS_DOCS", ["Income or income period missing"], alts, []⟩

/-! ## Near-miss analyzer, route revision (`app/routes/cases.py`) -/

/-- `NearMissResult` dataclass from `app/routes/cases.py`. -/
structure NearMissResult where
  is_near_miss : Bool
  reason_key : String
  distance : String
  counterfactual : String
  alternatives : List String
deriving Repr, DecidableEq

/-- `check_near_miss(profile, scheme_code)` from `app/routes/cases.py`.
The UJJ tolerance test `diff <= 0.2 * limit` is on doubles in the source;
`0.2 * 250000` evaluates to exactly `50000.0`, and an integer `diff`
converts exactly, so the comparison is modelled as `diff ≤ 50000`. -/
def check_near_miss (profile : Profile) (scheme_code : String) : NearMissResult :=
  let income := profile.income.getD 0
  let gender := profile.gender
  let rural := profile.rural
  let res : NearMissResult :=
    if scheme_code = "UJJ" then
      if 250000 < income ∧ income - 250000 ≤ 50000 then
        { is_near_miss := true
          reason_key := "income_just_over_limit"
          distance := "₹" ++ toString (income - 250000) ++ " over ₹250000"
          counterfactual :=
            "If verified household income were below ₹250000, this decision might change."
          alternatives := [] }
      else ⟨false, "", "", "", []⟩
    else if scheme_code = "PMAY" then
      if 300000 < income ∧ income - 300000 ≤ 50000 then
        { is_near_miss := true
          reason_key := "income_ews_boundary"
          distance := "₹" ++ toString (income - 300000) ++ " over ₹300000"
          counterfactual :=
            "If verified income after deductions is below ₹300000, they may qualify for EWS category."
          alternatives := [] }
      else ⟨false, "", "", "", []⟩
    else ⟨false, "", "", "", []⟩
  let res :=
    if scheme_code = "UJJ" ∧ gender = some "M" ∧ rural = 1 ∧
        res.alternatives.contains "PMAY" = false then
      { res with alternatives := res.alternatives ++ ["PMAY"] }
    else res
  if scheme_code = "UJJ" ∧ rural = 1 ∧ income < 100000 ∧
      res.alternatives.contains "MGNREGA (Job Card)" = false then
    { res with alternatives := res.alternatives ++ ["MGNREGA (Job Card)"] }
  else res

/-! ## Near-miss analyzer, engine revision (`app/engine/near_miss.py`) -/

/-- Thousands-separator digit grouping over a reversed digit list: a comma
is inserted after every third digit while further digits remain. -/
def commaRev : List Char → Nat → List Char
  | [], _ => []
  | [c], _ => [c]
  | c :: rest, i =>
      if i % 3 = 2 then c :: ',' :: commaRev rest (i + 1)
      else c :: commaRev rest (i + 1)

/-- Python `f"{n:,}"` for an integer: decimal digits grouped in threes. -/
def int_comma (n : Int) : String :=
  let s := toString n.natAbs
  let grouped := String.mk ((commaRev s.data.reverse 0).reverse)
  if n < 0 then "-" ++ grouped else grouped

/-- `NearMissResult` dataclass from `app/engine/near_miss.py` (named apart
to keep both checked-in revisions side by side). -/
structure NearMissEngineResult where
  is_near_miss : Bool
  flag_suffix : Option String
  alternatives : List String
deriving Repr, DecidableEq

/-- `check_near_miss(profile, scheme_code)` from `app/engine/near_miss.py`.
Same exact-float remark as for the route revision applies to
`diff <= 0.2 * LIMIT`. -/
def check_near_miss_engine (profile : Profile) (scheme_code : String) :
    NearMissEngineResult :=
  let income := profile.income.getD 0
  let rural := profile.rural
  let gender := profile.gender
  if scheme_code = "UJJ" then
    let res : NearMissEngineResult :=
      if 250000 < income ∧ income - 250000 ≤ 50000 then
        { is_near_miss := true
          flag_suffix := some
            ("Near Miss: UJJ income just over limit | ₹" ++
              int_comma (income - 250000) ++ " over ₹2,50,000 | " ++
              "If verified income after deductions falls below ₹2,50,000, " ++
              "eligibility may change.")
          alternatives := [] }
      else ⟨false, none, []⟩
    let res :=
      if gender = some "M" ∧ rural = 1 ∧ res.alternatives.contains "PMAY" = false then
        { res with alternatives := res.alternatives ++ ["PMAY"] }
      else res
    if rural = 1 ∧ income < 100000 ∧
        res.alternatives.contains "MGNREGA (Job Card)" = false then
      { res with alternatives := res.alternatives ++ ["MGNREGA (Job Card)"] }
    else res
  else if scheme_code = "PMAY" then
    if 300000 < income ∧ income - 300000 ≤ 50000 then
      { is_near_miss := true
        flag_suffix := some
          ("Near Miss: PMAY EWS income boundary | ₹" ++
            int_comma (income - 300000) ++ " over ₹3,00,000 | " ++
            "If income after deductions or corrected records falls below ₹3,00,000, " ++
            "they may qualify under EWS.")
        alternatives := [] }
    else ⟨false, none, []⟩
  else ⟨false, none, []⟩

/-! ## Arm assignment (`app/routes/cases.py`, `assign_arm`) -/

/-- The dict returned by `assign_arm`. -/
structure ArmData where
  name : String
  reason : String
deriving Repr, DecidableEq

/-- `assign_arm(citizen_hash)` from `app/routes/cases.py`: the arm is the
parity of the character count of `citizen_hash`; the scheme code is not an
input. -/
def assign_arm (citizen_hash : String) : ArmData :=
  if citizen_hash.length % 2 = 0 then ⟨"TREATMENT", "hash_even_len"⟩
  else ⟨"CONTROL", "hash_odd_len"⟩

/-! ## Risk scoring (`app/engine/audit.py`, `app/ai/predictors.py`) -/

/-- `risk_flag_from_prob(prob, marginalized)` from `app/engine/audit.py`.
Callers pass the integer `caste_marginalized`; Python's `bool(...)` of it
is taken before the call sites below, so the parameter is a `Bool` here. -/
def risk_flag_from_prob (prob : ℚ) (marginalized : Bool) : Bool :=
  if marginalized = true ∧ prob < 3/10 then true
  else if prob < 3/20 then true
  else false

/-- Python `round(x, 3)` (round half to even), on exact rationals.  The
source computes on doubles; at the values reached in the theorems below
both sides are exactly representable, so the two agree there. -/
def round3 (x : ℚ) : ℚ :=
  let y : ℚ := x * 1000
  let f : ℤ := Int.floor y
  let frac : ℚ := y - (f : ℚ)
  if frac < 1/2 then (f : ℚ) / 1000
  else if 1/2 < frac then ((f + 1 : ℤ) : ℚ) / 1000
  else if f % 2 = 0 then (f : ℚ) / 1000 else ((f + 1 : ℤ) : ℚ) / 1000

/-- The dict returned by `predict_eligibility`. -/
structure AiResult where
  label : String
  prob : ℚ
  risk_score : ℚ
  risk_flag : Bool
deriving Repr, DecidableEq

/-- `predict_eligibility(features)` from `app/ai/predictors.py`.  The
eligibility classifier is the collaborator `model.predict_proba(x)[0, 1]`,
modelled as an optional function from the profile to a probability; a
missing model artifact makes the source raise `EligibilityModelNotFound`,
modelled as `Except.error`. -/
def predict_eligibility (model : Option (Profile → ℚ)) (features : Profile) :
    Except String AiResult :=
  match model with
  | none => Except.error "EligibilityModelNotFound"
  | some predict_proba =>
    let prob := round3 (predict_proba features)
    Except.ok
      { label := if 6/10 ≤ prob then "likely" else "uncertain"
        prob := prob
        risk_score := round3 (1 - prob)
        risk_flag := risk_flag_from_prob prob (features.caste_marginalized ≠ 0) }

/-- The route-level fallback dict
`{"prob": 0.0, "risk_flag": True, "risk_score": 1.0}` from
`app/routes/cases.py` line 198 (it carries no label key; no code path
reads a label from it). -/
def fallback_ai_result : AiResult :=
  { label := "", prob := 0, risk_score := 1, risk_flag := true }

/-- Outcome of the AI step of `create_case`: the `ai_result` in scope after
the try/except, whether `ml_available` is still true, and whether a
`FAILURE_LOG` event was recorded via `record_failure`. -/
structure AiStepOut where
  ai : AiResult
  ml_available : Bool
  failure_logged : Bool
deriving Repr, DecidableEq

/-- The AI step of `create_case` (`app/routes/cases.py` lines 197-214): it
calls `predict_eligibility` and then the intent classifier inside one
try/except; an eligibility-prediction failure leaves the fallback dict in
place, while an intent-classifier failure after a successful prediction
keeps the prediction but still marks `ml_available = False` and records a
failure. -/
def ai_step (model : Option (Profile → ℚ)) (intent_model : Option Unit)
    (features : Profile) : AiStepOut :=
  match predict_eligibility model features with
  | Except.error _ => ⟨fallback_ai_result, false, true⟩
  | Except.ok r =>
    match intent_model with
    | none => ⟨r, false, true⟩
    | some _ => ⟨r, true, false⟩

/-! ## Decision record build and blinding (`app/routes/cases.py`) -/

/-- Modelled from the spec: `create_case` reads `rule_result.audit_flag`
from an `AssistOut` value, but the revision of the rule engine producing
`AssistOut` is not in the repository (the checked-in `rules.py` returns
`RuleOut`, which has no `audit_flag` field).  Spec §4.4 ties rule-level
review routing to `rule_result ≠ ELIGIBLE_BY_RULE`, so the missing field
is modelled as exactly that test. -/
def rule_audit_flag (r : RuleOut) : Bool :=
  decide (r.rule_result ≠ "ELIGIBLE_BY_RULE")

/-- The fields of the `models.Case` row relevant to audit and blinding. -/
structure StoredCase where
  review_confidence : Option ℚ
  audit_flag : Bool
  flag_reason : Option String
  arm : String
  ai_shown : Bool
deriving Repr, DecidableEq

/-- The `models.Case(...)` construction in `create_case`
(`app/routes/cases.py` lines 270-288), restricted to the tracked fields:
`review_confidence = ai_result.get("prob", 0.0)`,
`audit_flag = ai_result.get("risk_flag", True) or rule_result.audit_flag`,
`flag_reason = combined_flag_reason`; `ai_shown` starts false. -/
def build_case (arm_name : String) (ai : AiResult) (rule_audit : Bool)
    (flag_reason : String) : StoredCase :=
  { review_confidence := some ai.prob
    audit_flag := ai.risk_flag || rule_audit
    flag_reason := some flag_reason
    arm := arm_name
    ai_shown := false }

/-- The "Blinding logic for new cases" block (`app/routes/cases.py` lines
334-347): the stored row itself is updated — on the CONTROL arm the three
risk-derived fields are overwritten, on the TREATMENT arm `ai_shown` is
set and an unavailable model forces `audit_flag`/`flag_reason` — and the
result is committed; the outward response is then built from this same
row with `CaseResponse.from_orm(new_case)`. -/
def blind_new_case (ml_available : Bool) (c : StoredCase) : StoredCase :=
  if c.arm = "CONTROL" then
    { c with review_confidence := none, audit_flag := false,
             flag_reason := none, ai_shown := false }
  else if ml_available then { c with ai_shown := true }
  else { c with ai_shown := true, audit_flag := true,
                flag_reason := some "System Maintenance" }

/-- List-level check that the first list is an initial segment of the
second. -/
def starts_with : List Char → List Char → Bool
  | [], _ => true
  | _ :: _, [] => false
  | a :: as2, b :: bs => a == b && starts_with as2 bs

/-- List-level contiguous-substring check: the needle starts at some
position of the haystack. -/
def has_sub (needle : List Char) : List Char → Bool
  | [] => starts_with needle []
  | c :: rest => starts_with needle (c :: rest) || has_sub needle rest

/-- Python `needle in hay` on strings. -/
def str_has_sub (needle hay : String) : Bool :=
  has_sub needle.data hay.data

/-- Python `not flag_reason or "Near Miss" not in flag_reason`, the guard
of both PMAY near-miss response rewrites. -/
def flag_reason_needs_rewrite (fr : Option String) : Bool :=
  match fr with
  | none => true
  | some s => s == "" || !(str_has_sub "Near Miss" s)

/-- The local `msg` of the PMAY response rewrite:
`f"Near Miss: ₹{diff} over ₹300000"`. -/
def pmay_rewrite_msg (diff : Int) : String :=
  "Near Miss: ₹" ++ toString diff ++ " over ₹300000"

/-- The local `cf` of the PMAY response rewrite. -/
def pmay_rewrite_cf : String :=
  "If verified income after deductions is below ₹300000, they may qualify for EWS category."

/-- The condition of both PMAY "near-miss guarantee" rewrites:
`case.profile is not None` with `income_val = case.profile.income or 0`
in `(300000, 350000]` under the literal scheme code "PMAY" (the
`isinstance` test always holds for the integer incomes modelled here). -/
def pmay_near_miss_window (scheme_code : String) (profile : Option Profile) : Bool :=
  match profile with
  | none => false
  | some p =>
    decide (scheme_code = "PMAY") && decide (300000 < p.income.getD 0)
      && decide (p.income.getD 0 - 300000 ≤ 50000)

/-- The outward response of the new-case path (`app/routes/cases.py`
lines 352-375), applied to the committed row after blinding: first a
recorded ML failure forces `audit_flag = True` on the response object
(lines 357-361), then the PMAY near-miss guarantee (lines 363-375)
repopulates `flag_reason` — when the scheme code is "PMAY", the profile
is present, `income_val` is in `(300000, 350000]` and the current
`flag_reason` is blank or lacks "Near Miss" — with
`f"{msg} | {cf}|ml_risk={ai_result.get('risk_score', 0)}"`; the
f-string rendering of the risk score float is passed in as the opaque
`ml_risk_str`. -/
def new_case_response (ml_failure : Bool) (scheme_code : String)
    (profile : Option Profile) (ml_risk_str : String) (row : StoredCase) : StoredCase :=
  let resp := if ml_failure then { row with audit_flag := true } else row
  match profile with
  | none => resp
  | some p =>
    let income_val := p.income.getD 0
    if scheme_code = "PMAY" ∧ 300000 < income_val ∧ income_val - 300000 ≤ 50000 then
      if flag_reason_needs_rewrite resp.flag_reason = true then
        let fr := pmay_rewrite_msg (income_val - 300000) ++ " | " ++ pmay_rewrite_cf ++
          "|ml_risk=" ++ ml_risk_str
        { resp with flag_reason := some fr }
      else resp
    else resp

/-- The duplicate-submission path (`app/routes/cases.py` lines 295-332):
the response is built from the existing stored row (which this path never
writes); for the CONTROL arm the risk-derived fields are cleared on the
response object (lines 307-311), then the PMAY near-miss guarantee
(lines 312-324) repopulates `flag_reason` with `f"{msg} | {cf}"` under
the same condition as on the new-case path, and last a recorded ML
failure forces `audit_flag = True` (lines 326-330). -/
def duplicate_response (ml_failure : Bool) (scheme_code : String)
    (profile : Option Profile) (existing : StoredCase) : StoredCase :=
  let resp :=
    if existing.arm = "CONTROL" then
      { existing with review_confidence := none, audit_flag := false, flag_reason := none }
    else existing
  let resp :=
    match profile with
    | none => resp
    | some p =>
      let income_val := p.income.getD 0
      if scheme_code = "PMAY" ∧ 300000 < income_val ∧ income_val - 300000 ≤ 50000 then
        if flag_reason_needs_rewrite resp.flag_reason = true then
          let fr := pmay_rewrite_msg (income_val - 300000) ++ " | " ++ pmay_rewrite_cf
          { resp with flag_reason := some fr }
        else resp
      else resp
  if ml_failure then { resp with audit_flag := true } else resp

/-! ## Risk band -/

/-- Modelled from the spec: the risk-band thresholds of §4.3
(`risk_score ≥ 0.7` is HIGH, `≥ 0.4` is MED, else LOW).  No code under
`src/` computes `risk_band`; `app/models.py` line 188 only declares the
column and `app/routes/export.py` / `app/routes/dashboard.py` only echo
the stored value. -/
def risk_band (risk_score : ℚ) : String :=
  if 7/10 ≤ risk_score then "HIGH"
  else if 4/10 ≤ risk_score then "MED"
  else "LOW"

/-- Number of failing guards among the five deterministic checks of
`assistive_decision`, with each guard's failing condition exactly as in
the source. -/
def failed_guard_count (c : Criteria) (p : Profile) (annual : Int) : Nat :=
  (if c.min_age ≠ 0 ∧ p.age < c.min_age then 1 else 0) +
  (if c.gender ≠ [] ∧ gender_in p.gender c.gender = false then 1 else 0) +
  (if c.must_be_rural = true ∧ p.rural ≠ 1 then 1 else 0) +
  (if c.income_bands ≠ [] ∧ findBand c.income_bands annual = none then 1 else 0) +
  (if c.requires_marginalized = true ∧ p.caste_marginalized ≠ 1 then 1 else 0)

/-! ## Theorems -/

/-- C5: for every known scheme and every profile whose income and income
period are present and well-formed, the five guards are all evaluated and
accumulate independently: the reasons list is the in-order concatenation
of one reason per failing guard, so a profile failing k guards yields
exactly k reasons; an empty reasons list yields ELIGIBLE_BY_RULE and a
non-empty one yields INELIGIBLE_BY_RULE. -/
theorem guards_accumulate (sc : String) (cfg : SchemeCfg) (p : Profile)
    (inc : Int) (per : String) (annual : Int)
    (hcfg : get_scheme_config sc = some cfg)
    (hinc : p.income = some inc) (hper : p.income_period = some per)
    (hann : _annualize_income inc per = some annual) :
    (assistive_decision sc p).reasons =
      (if cfg.criteria.min_age ≠ 0 ∧ p.age < cfg.criteria.min_age then
        ["Age must be " ++ toString cfg.criteria.min_age ++ "+"] else []) ++
      (if cfg.criteria.gender ≠ [] ∧ gender_in p.gender cfg.criteria.gender = false then
        ["Applicant category not eligible"] else []) ++
      (if cfg.criteria.must_be_rural = true ∧ p.rural ≠ 1 then
        ["Must be Rural"] else []) ++
      (if cfg.criteria.income_bands ≠ [] ∧ findBand cfg.criteria.income_bands annual = none then
        ["Income exceeds all eligible bands"] else []) ++
      (if cfg.criteria.requires_marginalized = true ∧ p.caste_marginalized ≠ 1 then
        ["Must belong to eligible social category"] else [])
    ∧ (assistive_decision sc p).reasons.length = failed_guard_count cfg.criteria p annual
    ∧ ((assistive_decision sc p).reasons = []
        ↔ (assistive_decision sc p).rule_result = "ELIGIBLE_BY_RULE")
    ∧ ((assistive_decision sc p).reasons ≠ []
        ↔ (assistive_decision sc p).rule_result = "INELIGIBLE_BY_RULE") := by
  obtain ⟨age, g, ru, ca, pi, pp⟩ := p
  simp only at hinc hper
  subst hinc hper
  simp only [assistive_decision, hcfg, hann, failed_guard_count]
  split_ifs <;> simp_all

/-- Witness for C5: a PMAY profile failing exactly the age guard and the
income-band guard yields exactly two reasons and INELIGIBLE_BY_RULE. -/
theorem guards_accumulate_witness :
    (assistive_decision "PMAY" ⟨17, some "M", 0, 0, some 700000, some "annual"⟩).reasons.length = 2
    ∧ (assistive_decision "PMAY"
        ⟨17, some "M", 0, 0, some 700000, some "annual"⟩).rule_result = "INELIGIBLE_BY_RULE" := by
  have h := guards_accumulate "PMAY" pmay_config
    ⟨17, some "M", 0, 0, some 700000, some "annual"⟩ 700000 "annual" 700000
    (by decide) rfl rfl (by decide)
  refine ⟨?_, ?_⟩
  · rw [h.2.1]; decide
  · exact (h.2.2.2).mp (by decide)

/-- C6: annualization uses income unchanged for the `annual` period and
income times twelve for `monthly`; any other period value fails, and for a
known scheme an absent income or period yields UNKNOWN_NEEDS_DOCS with
reason "Income or income period missing", while a present but unparseable
period yields UNKNOWN_NEEDS_DOCS with reason "Invalid income format" —
with no guard checks performed in either case. -/
theorem annualization_and_missing_income :
    (∀ i : Int, _annualize_income i "annual" = some i)
    ∧ (∀ i : Int, _annualize_income i "monthly" = some (i * 12))
    ∧ (∀ (i : Int) (per : String), per ≠ "annual" → per ≠ "monthly" →
        _annualize_income i per = none)
    ∧ (∀ (sc : String) (cfg : SchemeCfg) (p : Profile),
        get_scheme_config sc = some cfg →
        (p.income = none ∨ p.income_period = none) →
        assistive_decision sc p =
          ⟨"UNKNOWN_NEEDS_DOCS", ["Income or income period missing"], cfg.alternatives, []⟩)
    ∧ (∀ (sc : String) (cfg : SchemeCfg) (p : Profile) (i : Int) (per : String),
        get_scheme_config sc = some cfg →
        p.income = some i → p.income_period = some per →
        per ≠ "annual" → per ≠ "monthly" →
        assistive_decision sc p =
          ⟨"UNKNOWN_NEEDS_DOCS", ["Invalid income format"], cfg.alternatives, []⟩) := by
  refine ⟨fun i => rfl, fun i => by simp [_annualize_income], ?_, ?_, ?_⟩
  · intro i per h1 h2
    simp [_annualize_income, h1, h2]
  · intro sc cfg p hcfg hmiss
    obtain ⟨age, g, ru, ca, pi, pp⟩ := p
    simp only [assistive_decision, hcfg]
    rcases hmiss with h | h
    · simp only at h
      subst h
      cases pp <;> rfl
    · simp only at h
      subst h
      cases pi <;> rfl
  · intro sc cfg p i per hcfg hi hp h1 h2
    obtain ⟨age, g, ru, ca, pi, pp⟩ := p
    simp only at hi hp
    subst hi hp
    simp [assistive_decision, hcfg, _annualize_income, h1, h2]

/-- Witness for C6: a PMAY profile with no income yields
"Income or income period missing", and one with a weekly period yields
"Invalid income format". -/
theorem annualization_and_missing_income_witness :
    assistive_decision "PMAY" ⟨25, some "M", 0, 0, none, some "annual"⟩ =
      ⟨"UNKNOWN_NEEDS_DOCS", ["Income or income period missing"],
        ["Rent Agreement Support", "Shelter Homes"], []⟩
    ∧ assistive_decision "PMAY" ⟨25, some "M", 0, 0, some 10000, some "weekly"⟩ =
      ⟨"UNKNOWN_NEEDS_DOCS", ["Invalid income format"],
        ["Rent Agreement Support", "Shelter Homes"], []⟩ := by
  constructor
  · exact annualization_and_missing_income.2.2.2.1 "PMAY" pmay_config
      ⟨25, some "M", 0, 0, none, some "annual"⟩ (by decide) (Or.inl rfl)
  · exact annualization_and_missing_income.2.2.2.2 "PMAY" pmay_config
      ⟨25, some "M", 0, 0, some 10000, some "weekly"⟩ 10000 "weekly"
      (by decide) rfl rfl (by decide) (by decide)

/-- The band scan is the first entry of the list satisfying
`annual ≤ max`, in list order. -/
theorem findBand_as_first_match (bands : List Band) (annual : Int) :
    findBand bands annual
      = (bands.find? (fun b => decide (annual ≤ b.max))).map Band.name := by
  induction bands with
  | nil => rfl
  | cons b rest ih =>
    by_cases hb : annual ≤ b.max
    · simp [findBand, List.find?_cons_of_pos, hb]
    · simp [findBand, List.find?_cons_of_neg, hb, ih]

/-- In a band list sorted ascending by `max`, the band the scan matches
carries the least `max` among all bands that admit the income. -/
theorem findBand_minimal (bands : List Band) (annual : Int) (nm : String)
    (hsort : List.Pairwise (fun a b => a.max ≤ b.max) bands)
    (h : findBand bands annual = some nm) :
    ∃ b ∈ bands, b.name = nm ∧ annual ≤ b.max ∧
      ∀ b' ∈ bands, annual ≤ b'.max → b.max ≤ b'.max := by
  induction bands with
  | nil => simp [findBand] at h
  | cons b rest ih =>
    rw [List.pairwise_cons] at hsort
    by_cases hb : annual ≤ b.max
    · simp only [findBand, if_pos hb, Option.some.injEq] at h
      refine ⟨b, by simp, h, hb, ?_⟩
      intro b' hb' _
      rcases List.mem_cons.mp hb' with rfl | hmem
      · exact le_refl _
      · exact hsort.1 b' hmem
    · simp only [findBand, if_neg hb] at h
      obtain ⟨b', hmem, hname, hle, hmin⟩ := ih hsort.2 h
      refine ⟨b', List.mem_cons_of_mem _ hmem, hname, hle, ?_⟩
      intro b'' hb'' hle''
      rcases List.mem_cons.mp hb'' with rfl | hmem''
      · exact absurd hle'' hb
      · exact hmin b'' hmem'' hle''

/-- C7: income-band matching is first-match-ascending — the scan returns
the first band in list order whose `max` admits the annual income; the
configured PMAY band list is ascending in `max`, so on a sorted list the
matched band has the least admitting `max`; concretely, PMAY at annual
income 250000 is tagged with the EWS band (never LIG), and a PMAY income
above every band appends the reason "Income exceeds all eligible bands". -/
theorem income_band_first_match :
    (∀ (bands : List Band) (annual : Int),
        findBand bands annual
          = (bands.find? (fun b => decide (annual ≤ b.max))).map Band.name)
    ∧ List.Pairwise (fun a b => a.max ≤ b.max) pmay_bands
    ∧ (∀ (bands : List Band) (annual : Int) (nm : String),
        List.Pairwise (fun a b => a.max ≤ b.max) bands →
        findBand bands annual = some nm →
        ∃ b ∈ bands, b.name = nm ∧ annual ≤ b.max ∧
          ∀ b' ∈ bands, annual ≤ b'.max → b.max ≤ b'.max)
    ∧ (assistive_decision "PMAY" ⟨30, some "F", 0, 0, some 250000, some "annual"⟩).tags
        = ["PMAY_BAND:EWS (Economically Weaker)"]
    ∧ "Income exceeds all eligible bands"
        ∈ (assistive_decision "PMAY" ⟨30, some "F", 0, 0, some 700000, some "annual"⟩).reasons :=
  ⟨findBand_as_first_match, by decide, findBand_minimal, by decide, by decide⟩

/-- Witness for C7: at annual income 250000 the first admitting PMAY band
is EWS with max 300000, which is minimal among admitting bands. -/
theorem income_band_first_match_witness :
    ∃ b ∈ pmay_bands, b.name = "EWS (Economically Weaker)" ∧ (250000 : Int) ≤ b.max ∧
      ∀ b' ∈ pmay_bands, (250000 : Int) ≤ b'.max → b.max ≤ b'.max :=
  income_band_first_match.2.2.1 pmay_bands 250000 "EWS (Economically Weaker)"
    (by decide) (by decide)

/-- C8: near-miss detection is strict at the boundary in both checked-in
revisions — for PMAY (limit 300000, tolerance 50000) and UJJ (limit
250000, tolerance 20 percent of the limit, i.e. 50000), `is_near_miss`
holds exactly when `0 < income − limit ≤ tolerance`; in particular income
exactly at the limit is not a near miss and income beyond
`limit + tolerance` is not a near miss. -/
theorem near_miss_boundary :
    (∀ p : Profile,
        (check_near_miss p "PMAY").is_near_miss = true
          ↔ 0 < p.income.getD 0 - 300000 ∧ p.income.getD 0 - 300000 ≤ 50000)
    ∧ (∀ p : Profile,
        (check_near_miss p "UJJ").is_near_miss = true
          ↔ 0 < p.income.getD 0 - 250000 ∧ p.income.getD 0 - 250000 ≤ 50000)
    ∧ (∀ p : Profile,
        (check_near_miss_engine p "PMAY").is_near_miss = true
          ↔ 0 < p.income.getD 0 - 300000 ∧ p.income.getD 0 - 300000 ≤ 50000)
    ∧ (∀ p : Profile,
        (check_near_miss_engine p "UJJ").is_near_miss = true
          ↔ 0 < p.income.getD 0 - 250000 ∧ p.income.getD 0 - 250000 ≤ 50000) := by
  refine ⟨fun p => ?_, fun p => ?_, fun p => ?_, fun p => ?_⟩ <;>
    simp only [check_near_miss, check_near_miss_engine] <;>
    split_ifs <;> simp_all

/-- Witness for C8: PMAY boundary values — 300000 is not a near miss,
300001 and 350000 are, 350001 is not. -/
theorem near_miss_boundary_witness :
    (check_near_miss ⟨40, some "F", 0, 0, some 300000, some "annual"⟩ "PMAY").is_near_miss = false
    ∧ (check_near_miss ⟨40, some "F", 0, 0, some 300001, some "annual"⟩ "PMAY").is_near_miss = true
    ∧ (check_near_miss ⟨40, some "F", 0, 0, some 350000, some "annual"⟩ "PMAY").is_near_miss = true
    ∧ (check_near_miss ⟨40, some "F", 0, 0, some 350001, some "annual"⟩ "PMAY").is_near_miss = false := by
  refine ⟨?_, ?_, ?_, ?_⟩
  · have h := near_miss_boundary.1 ⟨40, some "F", 0, 0, some 300000, some "annual"⟩
    revert h
    decide
  · exact (near_miss_boundary.1 _).mpr (by decide)
  · exact (near_miss_boundary.1 _).mpr (by decide)
  · have h := near_miss_boundary.1 ⟨40, some "F", 0, 0, some 350001, some "annual"⟩
    revert h
    decide

/-- C10: for every scheme code other than UJJ and PMAY, both checked-in
near-miss revisions return the inert result — no near miss, no near-miss
message, and an empty alternatives list. -/
theorem near_miss_other_schemes (p : Profile) (sc : String)
    (h1 : sc ≠ "UJJ") (h2 : sc ≠ "PMAY") :
    check_near_miss p sc = ⟨false, "", "", "", []⟩
    ∧ check_near_miss_engine p sc = ⟨false, none, []⟩ := by
  constructor <;> simp [check_near_miss, check_near_miss_engine, h1, h2]

/-- Witness for C10: the MGNREGA scheme code gets the inert near-miss
result from both revisions. -/
theorem near_miss_other_schemes_witness :
    check_near_miss ⟨40, some "M", 1, 0, some 50000, some "annual"⟩ "MGNREGA"
        = ⟨false, "", "", "", []⟩
    ∧ check_near_miss_engine ⟨40, some "M", 1, 0, some 50000, some "annual"⟩ "MGNREGA"
        = ⟨false, none, []⟩ :=
  near_miss_other_schemes ⟨40, some "M", 1, 0, some 50000, some "annual"⟩ "MGNREGA"
    (by decide) (by decide)

/-- C2: the checked-in `assign_arm` derives the arm from the length parity
of `citizen_hash` alone.  At the input the repository's own test drives it
with, "citizen_treat_001" (17 characters), it returns CONTROL, although
the salted-digest rule asserted by `test_v1_flow._assign_arm` (the sha256
digest of "citizen_treat_001|PMAY|v1" has an even value) demands
TREATMENT; and any two identifiers of equal length always receive the
same arm, so no digest bit and no scheme code can influence it. -/
theorem assign_arm_length_parity :
    assign_arm "citizen_treat_001" = ⟨"CONTROL", "hash_odd_len"⟩
    ∧ (∀ h1 h2 : String, h1.length = h2.length → assign_arm h1 = assign_arm h2) := by
  constructor
  · decide
  · intro h1 h2 h
    simp [assign_arm, h]

/-- Witness for C2: two distinct 17-character identifiers receive the
same arm. -/
theorem assign_arm_length_parity_witness :
    assign_arm "citizen_treat_001" = assign_arm "citizen_treat_902" :=
  assign_arm_length_parity.2 "citizen_treat_001" "citizen_treat_902" (by decide)

/-- C9: risk bands from the spec-modelled thresholds — a risk score of at
least 0.7 is HIGH, at least 0.4 but below 0.7 is MED, below 0.4 is LOW;
the unavailable-scorer fallback of `create_case` carries probability 0 and
risk score 1, whose band is HIGH. -/
theorem risk_band_thresholds (s : ℚ) :
    (7/10 ≤ s → risk_band s = "HIGH")
    ∧ (4/10 ≤ s → s < 7/10 → risk_band s = "MED")
    ∧ (s < 4/10 → risk_band s = "LOW")
    ∧ fallback_ai_result.prob = 0
    ∧ fallback_ai_result.risk_score = 1
    ∧ risk_band fallback_ai_result.risk_score = "HIGH" := by
  refine ⟨?_, ?_, ?_, rfl, rfl, ?_⟩
  · intro h
    simp [risk_band, h]
  · intro h1 h2
    have h3 : ¬ (7/10 ≤ s) := not_le.mpr h2
    simp [risk_band, h1, h3]
  · intro h
    have h1 : ¬ (7/10 ≤ s) := by
      intro hc
      linarith
    have h2 : ¬ (4/10 ≤ s) := not_le.mpr h
    simp [risk_band, h1, h2]
  · norm_num [risk_band, fallback_ai_result]

/-- Witness for C9: concrete scores in each band. -/
theorem risk_band_thresholds_witness :
    risk_band (4/5) = "HIGH" ∧ risk_band (1/2) = "MED" ∧ risk_band (1/10) = "LOW" :=
  ⟨(risk_band_thresholds (4/5)).1 (by norm_num),
   (risk_band_thresholds (1/2)).2.1 (by norm_num) (by norm_num),
   (risk_band_thresholds (1/10)).2.2.1 (by norm_num)⟩

/-- C4, counterexample: on a missing classifier artifact
`predict_eligibility` itself raises (`EligibilityModelNotFound`) to its
caller instead of returning an available=false outcome. -/
theorem predict_eligibility_raises :
    predict_eligibility none ⟨30, some "F", 0, 0, some 240000, some "annual"⟩
      = Except.error "EligibilityModelNotFound" := rfl

/-- C4 as amended: the error is caught one level up — whenever
`predict_eligibility` fails, the AI step of `create_case` substitutes the
fallback values probability 0, risk score 1, risk flag true, marks the
scorer unavailable, and records a recoverable-failure (FAILURE_LOG)
event; no error propagates out of the step. -/
theorem ai_step_fallback (model : Option (Profile → ℚ))
    (intent_model : Option Unit) (p : Profile)
    (h : (predict_eligibility model p).isOk = false) :
    ai_step model intent_model p = ⟨fallback_ai_result, false, true⟩
    ∧ fallback_ai_result.prob = 0
    ∧ fallback_ai_result.risk_score = 1
    ∧ fallback_ai_result.risk_flag = true := by
  cases model with
  | none => exact ⟨rfl, rfl, rfl, rfl⟩
  | some f => simp [predict_eligibility, Except.isOk, Except.toBool] at h

/-- Witness for C4: with no classifier artifact the AI step returns the
fallback, unavailable, with a failure logged. -/
theorem ai_step_fallback_witness :
    ai_step none none ⟨30, some "F", 0, 0, some 240000, some "annual"⟩
      = ⟨fallback_ai_result, false, true⟩ :=
  (ai_step_fallback none none ⟨30, some "F", 0, 0, some 240000, some "annual"⟩ rfl).1

/-- C1, counterexample: with the scorer available and predicting
probability 0.25 — risk score 0.75, at least 0.7 — a non-marginalized,
rule-eligible PMAY case is stored with `audit_flag = false`: the stored
flag has no `risk_score ≥ 0.7` disjunct. -/
theorem audit_flag_high_risk_not_flagged :
    7/10 ≤ (ai_step (some fun _ => 1/4) (some ())
        ⟨30, some "F", 0, 0, some 240000, some "annual"⟩).ai.risk_score
    ∧ (ai_step (some fun _ => 1/4) (some ())
        ⟨30, some "F", 0, 0, some 240000, some "annual"⟩).ml_available = true
    ∧ (assistive_decision "PMAY"
        ⟨30, some "F", 0, 0, some 240000, some "annual"⟩).rule_result = "ELIGIBLE_BY_RULE"
    ∧ (build_case "TREATMENT"
        (ai_step (some fun _ => 1/4) (some ())
          ⟨30, some "F", 0, 0, some 240000, some "annual"⟩).ai
        (rule_audit_flag (assistive_decision "PMAY"
          ⟨30, some "F", 0, 0, some 240000, some "annual"⟩))
        "flag").audit_flag = false := by
  have hround : round3 ((1 : ℚ)/4) = 1/4 := by
    have hf : Int.floor ((1 : ℚ)/4 * 1000) = 250 := by norm_num
    norm_num [round3, hf]
  have hrule : (assistive_decision "PMAY"
      ⟨30, some "F", 0, 0, some 240000, some "annual"⟩).rule_result
        = "ELIGIBLE_BY_RULE" := by decide
  refine ⟨by norm_num [ai_step, predict_eligibility, round3, Int.floor], by rfl, hrule, ?_⟩
  simp only [build_case, ai_step, predict_eligibility, rule_audit_flag, hround, hrule,
    risk_flag_from_prob]
  norm_num

/-- C1 as amended: the stored audit flag equals the disjunction of the AI
risk flag — true whenever the eligibility prediction failed, otherwise the
fairness guard on the predicted probability — and the rule-level audit
flag (rule_result ≠ ELIGIBLE_BY_RULE); a high risk score sets the flag
only through the fairness guard. -/
theorem audit_flag_combination (q : ℚ) (intent_model : Option Unit)
    (p : Profile) (r : RuleOut) (arm fr : String) :
    (build_case arm (ai_step none intent_model p).ai (rule_audit_flag r) fr).audit_flag = true
    ∧ (build_case arm (ai_step (some fun _ => q) (some ()) p).ai (rule_audit_flag r) fr).audit_flag
        = (risk_flag_from_prob (round3 q) (decide (p.caste_marginalized ≠ 0))
            || decide (r.rule_result ≠ "ELIGIBLE_BY_RULE")) := by
  constructor
  · simp [ai_step, predict_eligibility, build_case, fallback_ai_result]
  · simp [ai_step, predict_eligibility, build_case, rule_audit_flag]

/-- C3, counterexample: blinding a CONTROL-arm case on the new-case path
overwrites the stored record itself — the adjudicated `audit_flag = true`,
`review_confidence = 0.9` and `flag_reason` are replaced by hidden values
in storage, so the stored record does not keep the adjudicated values. -/
theorem blinding_mutates_stored_record :
    (blind_new_case true ⟨some (9/10), true, some "r1|ml_risk=0.5", "CONTROL", false⟩).audit_flag
        = false
    ∧ (blind_new_case true
        ⟨some (9/10), true, some "r1|ml_risk=0.5", "CONTROL", false⟩).review_confidence = none
    ∧ (blind_new_case true
        ⟨some (9/10), true, some "r1|ml_risk=0.5", "CONTROL", false⟩).flag_reason = none
    ∧ blind_new_case true ⟨some (9/10), true, some "r1|ml_risk=0.5", "CONTROL", false⟩
        ≠ ⟨some (9/10), true, some "r1|ml_risk=0.5", "CONTROL", false⟩ := by
  refine ⟨rfl, rfl, rfl, ?_⟩
  decide

/-- C3 as amended: on the new-case path a CONTROL arm hides
review_confidence, audit_flag and flag_reason in the stored record
itself, and the outward view is built from that blinded row but is not a
pure filter — a recorded ML failure forces `audit_flag` back to true on
the response, and inside the PMAY near-miss window the response's
`flag_reason` is repopulated with the near-miss text, on the new-case
path even carrying the `ml_risk` rendering of the risk score; outside
that window and absent an ML failure the view shows the hidden values.
The duplicate path leaves the stored row unwritten and blinds the
response alone, subject to the same rewrite and override. -/
theorem blinding_control_paths (c : StoredCase) (avail : Bool)
    (h : c.arm = "CONTROL") :
    blind_new_case avail c =
      { c with review_confidence := none, audit_flag := false,
               flag_reason := none, ai_shown := false }
    ∧ (∀ (mlf : Bool) (sc : String) (pr : Option Profile) (rs : String),
        (new_case_response mlf sc pr rs (blind_new_case avail c)).review_confidence = none
        ∧ (new_case_response mlf sc pr rs (blind_new_case avail c)).audit_flag = mlf
        ∧ (pmay_near_miss_window sc pr = false →
            (new_case_response mlf sc pr rs (blind_new_case avail c)).flag_reason = none)
        ∧ (∀ p : Profile, pr = some p → pmay_near_miss_window sc pr = true →
            (new_case_response mlf sc pr rs (blind_new_case avail c)).flag_reason
              = some (pmay_rewrite_msg (p.income.getD 0 - 300000) ++ " | " ++
                  pmay_rewrite_cf ++ "|ml_risk=" ++ rs)))
    ∧ (∀ (mlf : Bool) (sc : String) (pr : Option Profile),
        (duplicate_response mlf sc pr c).review_confidence = none
        ∧ (duplicate_response mlf sc pr c).audit_flag = mlf
        ∧ (pmay_near_miss_window sc pr = false →
            (duplicate_response mlf sc pr c).flag_reason = none)
        ∧ (∀ p : Profile, pr = some p → pmay_near_miss_window sc pr = true →
            (duplicate_response mlf sc pr c).flag_reason
              = some (pmay_rewrite_msg (p.income.getD 0 - 300000) ++ " | " ++
                  pmay_rewrite_cf))) := by
  have hb : blind_new_case avail c =
      { c with review_confidence := none, audit_flag := false,
               flag_reason := none, ai_shown := false } := by
    simp [blind_new_case, h]
  refine ⟨hb, ?_, ?_⟩
  · intro mlf sc pr rs
    rcases pr with _ | p
    · cases mlf <;>
        simp [new_case_response, hb, pmay_near_miss_window]
    · by_cases hw : sc = "PMAY" ∧ 300000 < p.income.getD 0 ∧ p.income.getD 0 - 300000 ≤ 50000
      · cases mlf <;>
          simp_all [new_case_response, hb, pmay_near_miss_window,
            flag_reason_needs_rewrite]
      · have hw2 : ¬ (sc = "PMAY" ∧ 300000 < p.income.getD 0 ∧ p.income.getD 0 ≤ 350000) := by
          intro hc
          exact hw ⟨hc.1, hc.2.1, by omega⟩
        cases mlf <;>
          · simp [new_case_response, hb, pmay_near_miss_window, hw2]
            intro h1 h2
            exact lt_of_not_le fun hle => hw2 ⟨h1, h2, hle⟩
  · intro mlf sc pr
    rcases pr with _ | p
    · cases mlf <;>
        simp [duplicate_response, h, pmay_near_miss_window]
    · by_cases hw : sc = "PMAY" ∧ 300000 < p.income.getD 0 ∧ p.income.getD 0 - 300000 ≤ 50000
      · cases mlf <;>
          simp_all [duplicate_response, h, pmay_near_miss_window,
            flag_reason_needs_rewrite]
      · have hw2 : ¬ (sc = "PMAY" ∧ 300000 < p.income.getD 0 ∧ p.income.getD 0 ≤ 350000) := by
          intro hc
          exact hw ⟨hc.1, hc.2.1, by omega⟩
        cases mlf <;>
          · simp [duplicate_response, h, pmay_near_miss_window, hw2]
            intro h1 h2
            exact lt_of_not_le fun hle => hw2 ⟨h1, h2, hle⟩

/-- Witness for C3: a CONTROL-arm PMAY case with income 310000 gets its
response `flag_reason` repopulated — with the ml_risk marker on the
new-case path — while a CONTROL duplicate outside the window keeps the
blinded response. -/
theorem blinding_control_paths_witness :
    (new_case_response false "PMAY"
        (some ⟨40, some "F", 0, 0, some 310000, some "annual"⟩) "0.75"
        (blind_new_case true ⟨some (1/2), true, some "x", "CONTROL", false⟩)).flag_reason
      = some (pmay_rewrite_msg 10000 ++ " | " ++ pmay_rewrite_cf ++ "|ml_risk=" ++ "0.75")
    ∧ (duplicate_response false "UJJ" none
        ⟨some (1/2), true, some "x", "CONTROL", false⟩).flag_reason = none := by
  constructor
  · have hmain := ((blinding_control_paths
      ⟨some (1/2), true, some "x", "CONTROL", false⟩ true rfl).2.1
        false "PMAY" (some ⟨40, some "F", 0, 0, some 310000, some "annual"⟩) "0.75").2.2.2
      ⟨40, some "F", 0, 0, some 310000, some "annual"⟩ rfl (by decide)
    simpa using hmain
  · exact ((blinding_control_paths
      ⟨some (1/2), true, some "x", "CONTROL", false⟩ true rfl).2.2
        false "UJJ" none).2.2.1 (by decide)

end Saral
